import Mathlib

/-! # Price-history chart initialiser

A shallow embedding of `src/static/pricing_analysis/js/price_chart.js`, whose single
function `initPriceChart(canvasId, chartData)` looks a canvas up by id, checks the data
object, and hands a line-chart configuration to the charting engine.

The function is ordinary JavaScript, so the embedding carries the small part of the
language semantics that the function exercises:

* values (`JSVal`) are the values `JSON.parse` produces, whose objects hold ordinary own
  data properties only, with `undefined`, `NaN` and the infinities added as leaves;
* reading a property of `undefined` or `null` raises a `TypeError`, so every property read
  returns an `Except`;
* `ToBoolean`, `=== 0`, template-literal string conversion and `Number.prototype.toFixed`
  follow ECMA-262; string conversion raises a `TypeError` on an object that cannot be
  converted, so it returns an `Except` too;
* the canvas lookup, the console and the engine constructor are collaborators: the lookup is
  a field of `Env`, and each console call and each `new Chart(...)` is recorded, in order,
  as an `Event`. The collaborators are taken to return to the caller.
-/

namespace PriceChart

/-! ## Values -/

/-- An ECMAScript Number. A finite value is `(-1)^neg * m * 2^e`, which is the shape of every
IEEE-754 double (there `m < 2^53` and `-1074 ≤ e ≤ 971`; the embedding does not need the
bounds, so it covers a superset). `finite true 0 e` is negative zero. -/
inductive JSNumber where
  | nan
  | posInf
  | negInf
  | finite (neg : Bool) (m : Nat) (e : Int)
deriving DecidableEq

/-- The values `initPriceChart` can be handed: primitives, arrays and plain objects.
A plain object is its list of own data properties, every key an ordinary one as after
`JSON.parse`, with `Object.prototype` as prototype; the first binding of a key wins. -/
inductive JSVal where
  | undefined
  | null
  | bool (b : Bool)
  | number (x : JSNumber)
  | string (s : String)
  | array (xs : List JSVal)
  | object (fields : List (String × JSVal))

/-- The two exceptions the language can raise in the operations used here. -/
inductive JSError where
  | typeError
  | rangeError
deriving DecidableEq

/-- A canvas element of the page, as returned by `document.getElementById`. -/
structure Canvas where
  handle : Nat
deriving DecidableEq

/-- The part of the host that the function reads and that is not modelled further:
the element lookup (`none` is the `null` result) and the decimal rendering of a finite
Number (`Number::toString`, the shortest digit string that reads back as the same double),
given sign, mantissa and binary exponent. -/
structure Env where
  getElementById : String → Option Canvas
  finiteToString : Bool → Nat → Int → String

namespace JSNumber

/-- The Number whose value is the natural number `n`. -/
def ofNat (n : Nat) : JSNumber := .finite false n 0

/-- Numerator of the magnitude `m * 2^e` written as a fraction of naturals. -/
def absNum (m : Nat) (e : Int) : Nat := m * 2 ^ e.toNat

/-- Denominator of the magnitude `m * 2^e` written as a fraction of naturals. -/
def absDen (e : Int) : Nat := 2 ^ (-e).toNat

/-- Whether the value is `+0` or `-0`. -/
def isZero : JSNumber → Bool
  | .finite _ m _ => m == 0
  | _ => false

end JSNumber

/-- The conversion `ToBoolean`: the falsy values are `undefined`, `null`, `false`, `±0`,
`NaN` and `""`. -/
def toBoolean : JSVal → Bool
  | .undefined => false
  | .null => false
  | .bool b => b
  | .number .nan => false
  | .number x => !x.isZero
  | .string s => s != ""
  | .array _ => true
  | .object _ => true

/-- Length of a string in UTF-16 code units, which is what `.length` of a string reports. -/
def utf16Length (s : String) : Nat :=
  (s.data.map fun c => if c.toNat < 65536 then 1 else 2).sum

/-- The property read `v.key`, for the property names the function uses (`labels`, `prices`,
`currency`, `length`, `parsed`, `y`), none of which is an array index or lives on a
built-in prototype. Reading from `undefined` or `null` raises a `TypeError`; an array and a
string have `length`; a missing property reads as `undefined`. -/
def getProp (v : JSVal) (key : String) : Except JSError JSVal :=
  match v with
  | .undefined => .error .typeError
  | .null => .error .typeError
  | .bool _ => .ok .undefined
  | .number _ => .ok .undefined
  | .string s =>
    .ok (if key = "length" then .number (JSNumber.ofNat (utf16Length s)) else .undefined)
  | .array xs =>
    .ok (if key = "length" then .number (JSNumber.ofNat xs.length) else .undefined)
  | .object fields => .ok ((fields.lookup key).getD .undefined)

/-- The comparison `v === 0`: true exactly for the Numbers `+0` and `-0`. -/
def strictEqualsZero : JSVal → Bool
  | .number x => x.isZero
  | _ => false

/-- The conversion `Number::toString`: fixed strings for the non-finite values, the host
rendering for the finite ones. -/
def numberToString (env : Env) : JSNumber → String
  | .nan => "NaN"
  | .posInf => "Infinity"
  | .negInf => "-Infinity"
  | .finite neg m e => env.finiteToString neg m e

mutual
/-- The conversion `ToString`, as applied to a substitution of a template literal. An array
is its elements joined by commas. A plain object is tried through its `toString` and then
its `valueOf`: the inherited `toString` gives `[object Object]`, but an own `toString`
property, which holds a value that cannot be called, hides it, the inherited `valueOf` hands
the object back, and the conversion raises a `TypeError`. -/
def toStringJS (env : Env) : JSVal → Except JSError String
  | .undefined => .ok "undefined"
  | .null => .ok "null"
  | .bool b => .ok (if b then "true" else "false")
  | .number x => .ok (numberToString env x)
  | .string s => .ok s
  | .array xs => joinJS env xs
  | .object fields =>
    if (fields.lookup "toString").isSome then .error .typeError else .ok "[object Object]"
termination_by structural v => v
/-- The method `Array.prototype.join(",")`: `undefined` and `null` elements contribute the
empty string, every other element its `ToString`, which may raise. -/
def joinJS (env : Env) : List JSVal → Except JSError String
  | [] => .ok ""
  | .undefined :: rest =>
    (joinJS env rest).map fun tail => (if rest.isEmpty then "" else ",") ++ tail
  | .null :: rest =>
    (joinJS env rest).map fun tail => (if rest.isEmpty then "" else ",") ++ tail
  | x :: rest =>
    match toStringJS env x with
    | .error err => .error err
    | .ok head =>
      (joinJS env rest).map fun tail => head ++ (if rest.isEmpty then "" else ",") ++ tail
termination_by structural l => l
end

/-! ## `Number.prototype.toFixed` -/

/-- Steps 11.b and 11.c of `Number.prototype.toFixed`: the decimal digits of `n`, left-padded
with zeros to more than `f` digits, with a point before the last `f` of them. -/
def toFixedDigits (n f : Nat) : String :=
  let m := Nat.toDigits 10 n
  if f = 0 then String.mk m
  else
    let m := if m.length ≤ f then List.replicate (f + 1 - m.length) '0' ++ m else m
    let k := m.length
    String.mk (m.take (k - f) ++ '.' :: m.drop (k - f))

/-- The integer `n` of step 11.a for a magnitude `num / den`: the integer for which
`n / 10^f` is closest to the magnitude, the larger one when two are equally close. -/
def toFixedRound (num den f : Nat) : Nat :=
  (2 * 10 ^ f * num + den) / (2 * den)

/-- The method `Number.prototype.toFixed(f)` on a Number (ECMA-262, 21.1.3.3). -/
def numberToFixed (env : Env) (x : JSNumber) (f : Nat) : Except JSError String :=
  if 100 < f then .error .rangeError
  else
    match x with
    | .finite neg m e =>
      let num := JSNumber.absNum m e
      let den := JSNumber.absDen e
      let s := if neg && m != 0 then "-" else ""
      if 10 ^ 21 * den ≤ num then .ok (s ++ env.finiteToString false m e)
      else .ok (s ++ toFixedDigits (toFixedRound num den f) f)
    | x => .ok (numberToString env x)

/-- The method call `v.toFixed(f)`. Only a Number has the method: on `undefined` and `null`
the property read raises, on any other value the property is `undefined` and calling it
raises. -/
def toFixed (env : Env) (v : JSVal) (f : Nat) : Except JSError String :=
  match v with
  | .number x => numberToFixed env x f
  | _ => .error .typeError

/-! ## The configuration object -/

/-- A callback handed to the engine: a function of one argument that returns a value or
raises. -/
abbrev Callback := JSVal → Except JSError JSVal

/-- The one entry of `data.datasets`. Numeric literals are kept as the decimals the source
writes. -/
structure Dataset where
  label : String
  data : JSVal
  borderColor : String
  backgroundColor : String
  borderWidth : Nat
  fill : Bool
  tension : ℚ
  pointRadius : Nat
  pointHoverRadius : Nat
  pointBackgroundColor : String
  pointBorderColor : String
  pointBorderWidth : Nat

/-- The `data` member of the configuration. -/
structure ConfigData where
  labels : JSVal
  datasets : List Dataset

/-- The member `options.plugins.legend`. -/
structure LegendOptions where
  display : Bool

/-- The member `options.plugins.tooltip.callbacks`. -/
structure TooltipCallbacks where
  label : Callback

/-- The member `options.plugins.tooltip`. -/
structure TooltipOptions where
  mode : String
  intersect : Bool
  callbacks : TooltipCallbacks

/-- The member `options.plugins`. -/
structure PluginOptions where
  legend : LegendOptions
  tooltip : TooltipOptions

/-- The member `options.scales.y.ticks`. -/
structure YTicks where
  callback : Callback

/-- The member `options.scales.y.grid`. -/
structure YGrid where
  color : String

/-- The member `options.scales.y`. -/
structure YScale where
  beginAtZero : Bool
  ticks : YTicks
  grid : YGrid

/-- The member `options.scales.x.ticks`. -/
structure XTicks where
  maxRotation : Nat
  minRotation : Nat
  maxTicksLimit : Nat

/-- The member `options.scales.x.grid`. -/
structure XGrid where
  display : Bool

/-- The member `options.scales.x`. -/
structure XScale where
  ticks : XTicks
  grid : XGrid

/-- The member `options.scales`. -/
structure Scales where
  y : YScale
  x : XScale

/-- The member `options.interaction`. -/
structure Interaction where
  mode : String
  axis : String
  intersect : Bool

/-- The member `options`. -/
structure ChartOptions where
  responsive : Bool
  maintainAspectRatio : Bool
  plugins : PluginOptions
  scales : Scales
  interaction : Interaction

/-- The object literal passed as second argument of `new Chart`. -/
structure ChartConfig where
  type : String
  data : ConfigData
  options : ChartOptions

/-! ## Effects -/

/-- What the function does to its collaborators, in the order it does it. -/
inductive Event where
  | consoleError (args : List JSVal)
  | consoleWarn (args : List JSVal)
  | consoleLog (args : List JSVal)
  | newChart (ctx : Canvas) (config : ChartConfig)

/-- A finished call: the events it produced and how it ended (`ok` is a normal return,
`error` an exception that reaches the caller). -/
structure Outcome where
  events : List Event
  result : Except JSError Unit

/-! ## The function -/

/-- The closure `function(context) { ... }` of `options.plugins.tooltip.callbacks.label`;
it captures `chartData`. -/
def tooltipLabel (env : Env) (chartData : JSVal) : Callback := fun context => do
  let parsed ← getProp context "parsed"
  let price ← getProp parsed "y"
  let fixed ← toFixed env price 2
  let currency ← getProp chartData "currency"
  let currencyText ← toStringJS env currency
  pure (.string ("Precio: $" ++ fixed ++ " " ++ currencyText))

/-- The closure `function(value) { return '$' + value.toFixed(2); }` of
`options.scales.y.ticks.callback`. -/
def yTickCallback (env : Env) : Callback := fun value => do
  let fixed ← toFixed env value 2
  pure (.string ("$" ++ fixed))

/-- The condition `!chartData || !chartData.labels || chartData.labels.length === 0`, with
the left-to-right short-circuit evaluation of `||`. -/
def noChartData (chartData : JSVal) : Except JSError Bool :=
  if !toBoolean chartData then .ok true
  else do
    let labels ← getProp chartData "labels"
    if !toBoolean labels then pure true
    else do
      let labels ← getProp chartData "labels"
      let length ← getProp labels "length"
      pure (strictEqualsZero length)

/-- The object literal `{ type: 'line', data: ..., options: ... }`, given what its three
reads of `chartData` produced: the labels, the currency already converted to text by the
template literal, and the prices. The tooltip closure keeps `chartData` itself. -/
def configLiteral (env : Env) (chartData labels : JSVal) (currencyText : String)
    (prices : JSVal) : ChartConfig :=
  { type := "line"
    data :=
      { labels := labels
        datasets :=
          [{ label := "Precio (" ++ currencyText ++ ")"
             data := prices
             borderColor := "#0d6efd"
             backgroundColor := "rgba(13, 110, 253, 0.1)"
             borderWidth := 2
             fill := true
             tension := 0.4
             pointRadius := 3
             pointHoverRadius := 6
             pointBackgroundColor := "#0d6efd"
             pointBorderColor := "#fff"
             pointBorderWidth := 2 }] }
    options :=
      { responsive := true
        maintainAspectRatio := true
        plugins :=
          { legend := { display := false }
            tooltip :=
              { mode := "index"
                intersect := false
                callbacks := { label := tooltipLabel env chartData } } }
        scales :=
          { y :=
              { beginAtZero := false
                ticks := { callback := yTickCallback env }
                grid := { color := "rgba(0, 0, 0, 0.05)" } }
            x :=
              { ticks := { maxRotation := 45, minRotation := 45, maxTicksLimit := 15 }
                grid := { display := false } } }
        interaction := { mode := "nearest", axis := "x", intersect := false } } }

/-- Evaluation of the second argument of `new Chart`, in source order: the read
`chartData.labels`, the read `chartData.currency` and its conversion to text inside the
template literal, the read `chartData.prices`, then the literal. Any of them may raise. -/
def chartConfig (env : Env) (chartData : JSVal) : Except JSError ChartConfig := do
  let labels ← getProp chartData "labels"
  let currency ← getProp chartData "currency"
  let currencyText ← toStringJS env currency
  let prices ← getProp chartData "prices"
  pure (configLiteral env chartData labels currencyText prices)

/-- The function `initPriceChart(canvasId, chartData)`. -/
def initPriceChart (env : Env) (canvasId : String) (chartData : JSVal) : Outcome :=
  match env.getElementById canvasId with
  | none =>
    { events := [.consoleError [.string "Canvas element not found:", .string canvasId]]
      result := .ok () }
  | some ctx =>
    match noChartData chartData with
    | .error err => { events := [], result := .error err }
    | .ok true =>
      { events := [.consoleWarn [.string "No chart data available"]]
        result := .ok () }
    | .ok false =>
      match chartConfig env chartData with
      | .error err => { events := [], result := .error err }
      | .ok config =>
        { events :=
            [.newChart ctx config, .consoleLog [.string "Price chart initialized successfully"]]
          result := .ok () }

/-! ## Reading an outcome -/

/-- The `new Chart(ctx, config)` calls among the events, in order. -/
def constructionCalls (events : List Event) : List (Canvas × ChartConfig) :=
  events.filterMap fun ev =>
    match ev with
    | .newChart ctx config => some (ctx, config)
    | _ => none

/-- Whether an event is a `console.error` or a `console.warn`. -/
def isErrorOrWarning : Event → Bool
  | .consoleError _ => true
  | .consoleWarn _ => true
  | _ => false

/-- The magnitude `m * 2^e` of a finite Number, as a rational. -/
def JSNumber.magnitude (m : Nat) (e : Int) : ℚ :=
  (JSNumber.absNum m e : ℚ) / (JSNumber.absDen e : ℚ)

/-- The sign that `toFixed` writes: a minus for a value below zero, nothing otherwise
(so nothing for negative zero). -/
def signText (neg : Bool) (m : Nat) : String :=
  if neg && m != 0 then "-" else ""

/-- A string without its blanks. CSS ignores blanks between the components of a colour
written in functional notation, so two such colours are the same when they agree up to
blanks. -/
def withoutBlanks (s : String) : String :=
  String.mk (s.data.filter fun c => c != ' ')

/-- The numeral of `n` hundredths with exactly two digits after the decimal point: the
decimal numeral of the whole part `n / 100`, a point, the tenths digit and the hundredths
digit. This follows the wording of the specification, not the code. -/
def writtenInHundredths (n : Nat) : String :=
  toString (n / 100) ++ "." ++ String.mk [Nat.digitChar (n / 10 % 10), Nat.digitChar (n % 10)]

/-- A dataset with its data payload (series label and series data) replaced. -/
def Dataset.withPayload (ds : Dataset) (seriesLabel : String) (seriesData : JSVal) : Dataset :=
  { ds with label := seriesLabel, data := seriesData }

/-- A configuration with every field that carries data payload replaced: the labels, the
series label and data of each dataset, and the tooltip text callback. -/
def ChartConfig.withPayload (config : ChartConfig) (labels : JSVal) (seriesLabel : String)
    (seriesData : JSVal) (tooltipText : Callback) : ChartConfig :=
  { config with
    data :=
      { labels := labels
        datasets := config.data.datasets.map fun ds => ds.withPayload seriesLabel seriesData }
    options :=
      { config.options with
        plugins :=
          { config.options.plugins with
            tooltip :=
              { config.options.plugins.tooltip with callbacks := { label := tooltipText } } } } }

/-- The message that closes a successful call. -/
def initializedMessage : Event :=
  .consoleLog [.string "Price chart initialized successfully"]

/-! ## Sample inputs -/

/-- A page with two canvases, `priceChart` and `priceChart2`. Its Number rendering is right
on the values the samples need, and only those are used: a whole number below `10^21` is
its decimal numeral, and `10^21` itself is `1e+21`. -/
def sampleEnv : Env :=
  { getElementById := fun canvasId =>
      if canvasId = "priceChart" then some ⟨0⟩
      else if canvasId = "priceChart2" then some ⟨1⟩
      else none
    finiteToString := fun neg m e =>
      if e = 0 ∧ m < 10 ^ 21 then (if neg && m != 0 then "-" else "") ++ toString m
      else "1e+21" }

/-- The double nearest to `19.999`. -/
def num19999 : JSNumber := .finite false 5629218059236409 (-48)

/-- The double `1e21`, that is `5^21 * 2^21`. -/
def num1e21 : JSNumber := .finite false 476837158203125 21

/-- Three dates. -/
def sampleLabels : List JSVal :=
  [.string "2024-01-01", .string "2024-01-02", .string "2024-01-03"]

/-- Three prices. -/
def samplePrices : List JSVal :=
  [.number num19999, .number (JSNumber.ofNat 5), .number (JSNumber.ofNat 21)]

/-- Three days of prices in dollars. -/
def sampleData : JSVal :=
  .object
    [("labels", .array sampleLabels), ("prices", .array samplePrices),
     ("currency", .string "USD")]

/-- The same days priced in euros, with the last price missing. -/
def sampleDataEUR : JSVal :=
  .object
    [("labels", .array sampleLabels),
     ("prices", .array [.number (JSNumber.ofNat 7), .number (JSNumber.ofNat 8)]),
     ("currency", .string "EUR")]

/-- A data object whose `labels` is an empty array. -/
def emptyData : JSVal :=
  .object [("labels", .array []), ("prices", .array []), ("currency", .string "USD")]

/-- A data object whose `currency` is an object with a `toString` entry of its own. -/
def oddCurrencyData : JSVal :=
  .object
    [("labels", .array sampleLabels), ("prices", .array samplePrices),
     ("currency", .object [("toString", .string "x")])]

/-- A data object whose `labels` came as a dictionary rather than a list. -/
def dictData : JSVal :=
  .object
    [("labels", .object [("2024-01-01", .number (JSNumber.ofNat 5))]),
     ("prices", .array [.number (JSNumber.ofNat 5)]),
     ("currency", .string "USD")]

/-- The context object the engine hands to a tooltip callback for a point of value `y`. -/
def tooltipContext (y : JSVal) : JSVal :=
  .object [("parsed", .object [("y", y)])]

/-! ## Decimal digits and `toFixed(2)` -/

theorem toDigitsCore_acc (b : Nat) : ∀ (fuel n : Nat) (ds : List Char),
    Nat.toDigitsCore b fuel n ds = Nat.toDigitsCore b fuel n [] ++ ds := by
  intro fuel
  induction fuel with
  | zero => intro n ds; simp [Nat.toDigitsCore]
  | succ k ih =>
    intro n ds
    simp only [Nat.toDigitsCore]
    split
    · simp
    · rw [ih (n / b) (Nat.digitChar (n % b) :: ds), ih (n / b) [Nat.digitChar (n % b)]]
      simp

theorem toDigitsCore_succ (k n : Nat) (ds : List Char) :
    Nat.toDigitsCore 10 (k + 1) n ds =
      if n / 10 = 0 then Nat.digitChar (n % 10) :: ds
      else Nat.toDigitsCore 10 k (n / 10) (Nat.digitChar (n % 10) :: ds) := by
  simp [Nat.toDigitsCore]

theorem toDigitsCore_fuel : ∀ (fuel n : Nat), n < fuel → ∀ fuel2 : Nat, n < fuel2 →
    Nat.toDigitsCore 10 fuel n [] = Nat.toDigitsCore 10 fuel2 n [] := by
  intro fuel
  induction fuel with
  | zero => intro n h; omega
  | succ k ih =>
    intro n _ fuel2 hf2
    obtain ⟨j, rfl⟩ : ∃ j, fuel2 = j + 1 := ⟨fuel2 - 1, by omega⟩
    rw [toDigitsCore_succ, toDigitsCore_succ]
    by_cases hz : n / 10 = 0
    · simp [hz]
    · simp only [hz, if_false]
      rw [toDigitsCore_acc 10 k, toDigitsCore_acc 10 j,
        ih (n / 10) (by omega) j (by omega)]

theorem toDigits_small (n : Nat) (h : n < 10) : Nat.toDigits 10 n = [Nat.digitChar n] := by
  have h0 : n / 10 = 0 := by omega
  have h1 : n % 10 = n := by omega
  simp [Nat.toDigits, Nat.toDigitsCore, h0, h1]

theorem toDigits_step (n : Nat) (h : 10 ≤ n) :
    Nat.toDigits 10 n = Nat.toDigits 10 (n / 10) ++ [Nat.digitChar (n % 10)] := by
  have hne : n / 10 ≠ 0 := by omega
  show Nat.toDigitsCore 10 (n + 1) n [] = Nat.toDigitsCore 10 (n / 10 + 1) (n / 10) [] ++ _
  rw [toDigitsCore_succ, if_neg hne, toDigitsCore_acc 10 n,
    toDigitsCore_fuel n (n / 10) (by omega) (n / 10 + 1) (by omega)]

theorem toDigits_ne_nil (n : Nat) : Nat.toDigits 10 n ≠ [] := by
  by_cases h : n < 10
  · rw [toDigits_small n h]; simp
  · rw [toDigits_step n (by omega)]; simp

theorem toFixedDigits_two (n : Nat) : toFixedDigits n 2 = writtenInHundredths n := by
  unfold writtenInHundredths
  have happ : ∀ a b : List Char, String.mk a ++ String.mk b = String.mk (a ++ b) := fun _ _ => rfl
  have hrepr : ∀ k : Nat, toString k = String.mk (Nat.toDigits 10 k) := fun _ => rfl
  rw [hrepr, show ("." : String) = String.mk ['.'] from rfl, happ, happ]
  unfold toFixedDigits
  by_cases h1 : n < 10
  · have e1 : n / 100 = 0 := by omega
    have e2 : n / 10 % 10 = 0 := by omega
    have e3 : n % 10 = n := by omega
    rw [e1, e2, e3, toDigits_small n h1]
    rfl
  · by_cases h2 : n < 100
    · have e1 : n / 100 = 0 := by omega
      have e2 : n / 10 % 10 = n / 10 := by omega
      rw [e1, e2, toDigits_step n (by omega), toDigits_small (n / 10) (by omega)]
      rfl
    · have e1 : n / 10 / 10 = n / 100 := by omega
      rw [toDigits_step n (by omega), toDigits_step (n / 10) (by omega), e1]
      have hlen : 0 < (Nat.toDigits 10 (n / 100)).length :=
        List.length_pos.mpr (toDigits_ne_nil _)
      simp only [List.length_append, List.length_cons, List.length_nil]
      have hk : ¬ ((Nat.toDigits 10 (n / 100)).length + (0 + 1) + (0 + 1) ≤ 2) := by omega
      simp only [hk, if_false]
      have hk2 : (Nat.toDigits 10 (n / 100)).length + (0 + 1) + (0 + 1) - 2
          = (Nat.toDigits 10 (n / 100)).length := by omega
      simp [hk2, List.append_assoc]

theorem absDen_pos (e : Int) : 0 < JSNumber.absDen e := by
  unfold JSNumber.absDen
  positivity

theorem toFixedRound_two_nearest (num den : Nat) (hden : 0 < den) :
    100 * ((num : ℚ) / den) - 1 / 2 < (toFixedRound num den 2 : ℚ) ∧
    (toFixedRound num den 2 : ℚ) ≤ 100 * ((num : ℚ) / den) + 1 / 2 := by
  have hd : (0 : ℚ) < den := by exact_mod_cast hden
  have h1 : toFixedRound num den 2 * (2 * den) ≤ 2 * 10 ^ 2 * num + den :=
    Nat.div_mul_le_self _ _
  have h2 : 2 * 10 ^ 2 * num + den < (toFixedRound num den 2 + 1) * (2 * den) := by
    have := Nat.lt_succ_self ((2 * 10 ^ 2 * num + den) / (2 * den))
    exact (Nat.div_lt_iff_lt_mul (by omega)).mp this
  have h1q : (toFixedRound num den 2 : ℚ) * (2 * den) ≤ 200 * num + den := by
    exact_mod_cast h1
  have h2q : (200 * num + den : ℚ) < ((toFixedRound num den 2 : ℚ) + 1) * (2 * den) := by
    exact_mod_cast h2
  have hx : 100 * ((num : ℚ) / den) = 100 * num / den := by ring
  rw [hx]
  constructor
  · rw [sub_lt_iff_lt_add, div_lt_iff₀ hd]
    nlinarith
  · rw [← sub_le_iff_le_add, le_div_iff₀ hd]
    nlinarith

theorem toFixed_two_of_small (env : Env) (neg : Bool) (m : Nat) (e : Int)
    (hsmall : JSNumber.absNum m e < 10 ^ 21 * JSNumber.absDen e) :
    ∃ n : Nat,
      (100 * JSNumber.magnitude m e - 1 / 2 < (n : ℚ) ∧
        (n : ℚ) ≤ 100 * JSNumber.magnitude m e + 1 / 2) ∧
      toFixed env (.number (.finite neg m e)) 2
        = .ok (signText neg m ++ writtenInHundredths n) := by
  refine ⟨toFixedRound (JSNumber.absNum m e) (JSNumber.absDen e) 2,
    toFixedRound_two_nearest _ _ (absDen_pos e), ?_⟩
  have hnot : ¬ (10 ^ 21 * JSNumber.absDen e ≤ JSNumber.absNum m e) := by omega
  simp only [toFixed, numberToFixed, hnot, if_false, toFixedDigits_two, signText]
  rfl

theorem toFixed_two_of_big (env : Env) (neg : Bool) (m : Nat) (e : Int)
    (hbig : 10 ^ 21 * JSNumber.absDen e ≤ JSNumber.absNum m e) :
    toFixed env (.number (.finite neg m e)) 2
      = .ok (signText neg m ++ env.finiteToString false m e) := by
  simp only [toFixed, numberToFixed, hbig, if_true, signText]
  rfl

/-! ## Facts about the guard and the reads -/

theorem getProp_of_truthy (v : JSVal) (key : String) (h : toBoolean v = true) :
    ∃ w, getProp v key = .ok w := by
  cases v <;> simp [toBoolean] at h <;> exact ⟨_, rfl⟩

theorem truthy_of_getProp (v w : JSVal) (key : String) (hk : key ≠ "length")
    (h : getProp v key = .ok w) (hw : w ≠ .undefined) : toBoolean v = true := by
  cases v with
  | undefined => simp [getProp] at h
  | null => simp [getProp] at h
  | bool b => simp [getProp] at h; exact absurd h.symm hw
  | number x => simp [getProp] at h; exact absurd h.symm hw
  | string s => simp [getProp, hk] at h; exact absurd h.symm hw
  | array xs => rfl
  | object fields => rfl

theorem noChartData_of_array (d : JSVal) (xs : List JSVal)
    (hl : getProp d "labels" = .ok (.array xs)) :
    noChartData d = .ok (xs.length == 0) := by
  have hd : toBoolean d = true :=
    truthy_of_getProp d _ "labels" (by decide) hl (by simp)
  unfold noChartData
  simp only [hd, hl, bind, Except.bind, pure, Except.pure]
  simp [toBoolean, getProp, strictEqualsZero, JSNumber.ofNat, JSNumber.isZero]

theorem noChartData_false_iff (d : JSVal) :
    noChartData d = .ok false ↔
      toBoolean d = true ∧ ∃ labels len, getProp d "labels" = .ok labels ∧
        toBoolean labels = true ∧ getProp labels "length" = .ok len ∧
        strictEqualsZero len = false := by
  unfold noChartData
  by_cases hd : toBoolean d = true
  · obtain ⟨labels, hl⟩ := getProp_of_truthy d "labels" hd
    by_cases hlt : toBoolean labels = true
    · obtain ⟨len, hlen⟩ := getProp_of_truthy labels "length" hlt
      simp [hd, hl, hlt, hlen, bind, Except.bind, pure, Except.pure]
    · simp [hd, hl, hlt, bind, Except.bind, pure, Except.pure]
  · simp [hd]

theorem noChartData_total (d : JSVal) : ∃ b, noChartData d = .ok b := by
  unfold noChartData
  by_cases hd : toBoolean d = true
  · obtain ⟨labels, hl⟩ := getProp_of_truthy d "labels" hd
    by_cases hlt : toBoolean labels = true
    · obtain ⟨len, hlen⟩ := getProp_of_truthy labels "length" hlt
      exact ⟨strictEqualsZero len,
        by simp [hd, hl, hlt, hlen, bind, Except.bind, pure, Except.pure]⟩
    · exact ⟨true, by simp [hd, hl, hlt, bind, Except.bind, pure, Except.pure]⟩
  · exact ⟨true, by simp [hd]⟩

theorem initPriceChart_valid (env : Env) (canvasId : String) (canvas : Canvas)
    (d currency : JSVal) (currencyText : String)
    (hs : env.getElementById canvasId = some canvas) (hv : noChartData d = .ok false)
    (hcur : getProp d "currency" = .ok currency)
    (htext : toStringJS env currency = .ok currencyText) :
    ∃ labels prices, getProp d "labels" = .ok labels ∧ getProp d "prices" = .ok prices ∧
      initPriceChart env canvasId d =
        { events := [.newChart canvas (configLiteral env d labels currencyText prices),
                     initializedMessage]
          result := .ok () } := by
  have hd := ((noChartData_false_iff d).mp hv).1
  obtain ⟨labels, hl⟩ := getProp_of_truthy d "labels" hd
  obtain ⟨prices, hp⟩ := getProp_of_truthy d "prices" hd
  refine ⟨labels, prices, hl, hp, ?_⟩
  simp [initPriceChart, hs, hv, chartConfig, hl, hcur, htext, hp, bind, Except.bind, pure,
    Except.pure, initializedMessage]

theorem initPriceChart_unconvertible (env : Env) (canvasId : String) (canvas : Canvas)
    (d currency : JSVal) (err : JSError)
    (hs : env.getElementById canvasId = some canvas) (hv : noChartData d = .ok false)
    (hcur : getProp d "currency" = .ok currency)
    (htext : toStringJS env currency = .error err) :
    initPriceChart env canvasId d = { events := [], result := .error err } := by
  have hd := ((noChartData_false_iff d).mp hv).1
  obtain ⟨labels, hl⟩ := getProp_of_truthy d "labels" hd
  simp [initPriceChart, hs, hv, chartConfig, hl, hcur, htext, bind, Except.bind]

theorem unconvertible_currency_raises :
    initPriceChart sampleEnv "priceChart" oddCurrencyData
      = { events := [], result := .error .typeError } :=
  initPriceChart_unconvertible sampleEnv "priceChart" ⟨0⟩ oddCurrencyData
    (.object [("toString", .string "x")]) .typeError rfl rfl rfl rfl

theorem constructionCalls_nonempty (env : Env) (canvasId : String) (d : JSVal)
    (h : constructionCalls (initPriceChart env canvasId d).events ≠ []) :
    noChartData d = .ok false := by
  unfold initPriceChart at h
  cases hs : env.getElementById canvasId with
  | none => simp [hs, constructionCalls] at h
  | some canvas =>
    cases hv : noChartData d with
    | error err => simp [hs, hv, constructionCalls] at h
    | ok b =>
      cases b with
      | true => simp [hs, hv, constructionCalls] at h
      | false => rfl

theorem initPriceChart_invalid (env : Env) (canvasId : String) (canvas : Canvas) (d : JSVal)
    (hs : env.getElementById canvasId = some canvas) (hv : noChartData d = .ok true) :
    initPriceChart env canvasId d =
      { events := [.consoleWarn [.string "No chart data available"]], result := .ok () } := by
  simp [initPriceChart, hs, hv]

/-! ## Successful initialisation -/

/-- C1: when the canvas is found, `labels` and `prices` are arrays of one common length
`N > 0`, and `currency` is a value the template literal can convert to text (any string,
as the data model has it, and likewise a number, a boolean, `null` or a missing currency),
the call makes exactly one `new Chart` call, on that canvas, with a configuration of type
`line` whose single dataset carries `prices` and whose labels are `labels`, and then logs
exactly one message with `console.log`; nothing else happens and the call returns. -/
theorem initPriceChart_constructs_line_chart (env : Env) (canvasId : String) (canvas : Canvas)
    (chartData currency : JSVal) (currencyText : String) (labels prices : List JSVal)
    (N : Nat)
    (hs : env.getElementById canvasId = some canvas)
    (hl : getProp chartData "labels" = .ok (.array labels))
    (hp : getProp chartData "prices" = .ok (.array prices))
    (hcur : getProp chartData "currency" = .ok currency)
    (htext : toStringJS env currency = .ok currencyText)
    (hlN : labels.length = N) (hpN : prices.length = N) (hN : 0 < N) :
    ∃ config ds,
      initPriceChart env canvasId chartData =
        { events := [.newChart canvas config,
                     .consoleLog [.string "Price chart initialized successfully"]]
          result := .ok () } ∧
      constructionCalls (initPriceChart env canvasId chartData).events = [(canvas, config)] ∧
      config.type = "line" ∧ config.data.datasets = [ds] ∧
      ds.data = .array prices ∧ config.data.labels = .array labels := by
  have hv : noChartData chartData = .ok false := by
    rw [noChartData_of_array chartData labels hl]
    have hne : (labels.length == 0) = false := by
      rw [beq_eq_false_iff_ne]
      omega
    rw [hne]
  obtain ⟨l, p, hl2, hp2, heq⟩ :=
    initPriceChart_valid env canvasId canvas chartData currency currencyText hs hv hcur htext
  rw [hl] at hl2
  rw [hp] at hp2
  cases hl2
  cases hp2
  exact ⟨_, _, heq, by rw [heq]; rfl, rfl, rfl, rfl, rfl⟩

/-- Witness for C1 on the sample page and the three sample days. -/
theorem initPriceChart_constructs_line_chart_witness :
    sampleEnv.getElementById "priceChart" = some ⟨0⟩ ∧
    getProp sampleData "labels" = .ok (.array sampleLabels) ∧
    getProp sampleData "prices" = .ok (.array samplePrices) ∧
    getProp sampleData "currency" = .ok (.string "USD") ∧
    toStringJS sampleEnv (.string "USD") = .ok "USD" ∧
    sampleLabels.length = 3 ∧ samplePrices.length = 3 ∧ 0 < 3 ∧
    ∃ config ds,
      initPriceChart sampleEnv "priceChart" sampleData =
        { events := [.newChart ⟨0⟩ config,
                     .consoleLog [.string "Price chart initialized successfully"]]
          result := .ok () } ∧
      constructionCalls (initPriceChart sampleEnv "priceChart" sampleData).events
        = [(⟨0⟩, config)] ∧
      config.type = "line" ∧ config.data.datasets = [ds] ∧
      ds.data = .array samplePrices ∧ config.data.labels = .array sampleLabels :=
  ⟨rfl, rfl, rfl, rfl, rfl, rfl, rfl, by decide,
    initPriceChart_constructs_line_chart sampleEnv "priceChart" ⟨0⟩ sampleData
      (.string "USD") "USD" sampleLabels samplePrices 3 rfl rfl rfl rfl rfl rfl rfl
      (by decide)⟩

/-! ## The two guards -/

/-- C2: when the canvas is not found, whatever `chartData` is, the call returns normally,
makes no `new Chart` call, and its only event is one `console.error` that carries
`canvasId`; in particular no warning is logged, the lookup being checked first. -/
theorem initPriceChart_missing_canvas (env : Env) (canvasId : String) (chartData : JSVal)
    (hs : env.getElementById canvasId = none) :
    initPriceChart env canvasId chartData =
      { events := [.consoleError [.string "Canvas element not found:", .string canvasId]]
        result := .ok () } ∧
    constructionCalls (initPriceChart env canvasId chartData).events = [] := by
  have heq : initPriceChart env canvasId chartData =
      { events := [.consoleError [.string "Canvas element not found:", .string canvasId]]
        result := .ok () } := by
    simp [initPriceChart, hs]
  exact ⟨heq, by rw [heq]; rfl⟩

/-- Witness for C2: an id the sample page does not have, with data that is also absent. -/
theorem initPriceChart_missing_canvas_witness :
    sampleEnv.getElementById "nowhere" = none ∧
    (initPriceChart sampleEnv "nowhere" .undefined =
      { events := [.consoleError [.string "Canvas element not found:", .string "nowhere"]]
        result := .ok () } ∧
    constructionCalls (initPriceChart sampleEnv "nowhere" .undefined).events = []) :=
  ⟨rfl, initPriceChart_missing_canvas sampleEnv "nowhere" .undefined rfl⟩

/-- C3: when the canvas is found and `chartData` is absent (`undefined` or `null`), or its
`labels` is absent, or its `labels` has length 0, the call returns normally, makes no
`new Chart` call, and its only event is one `console.warn` with the text
`No chart data available`. -/
theorem initPriceChart_no_data (env : Env) (canvasId : String) (canvas : Canvas)
    (chartData : JSVal) (hs : env.getElementById canvasId = some canvas)
    (h : chartData = .undefined ∨ chartData = .null ∨
      getProp chartData "labels" = .ok .undefined ∨
      getProp chartData "labels" = .ok .null ∨
      ∃ labels neg e, getProp chartData "labels" = .ok labels ∧
        getProp labels "length" = .ok (.number (.finite neg 0 e))) :
    initPriceChart env canvasId chartData =
      { events := [.consoleWarn [.string "No chart data available"]], result := .ok () } ∧
    constructionCalls (initPriceChart env canvasId chartData).events = [] := by
  have hv : noChartData chartData = .ok true := by
    unfold noChartData
    by_cases hd : toBoolean chartData = true
    · rcases h with h | h | h | h | ⟨labels, neg, e, hl, hlen⟩
      · rw [h] at hd; simp [toBoolean] at hd
      · rw [h] at hd; simp [toBoolean] at hd
      · simp [hd, h, bind, Except.bind, pure, Except.pure, toBoolean]
      · simp [hd, h, bind, Except.bind, pure, Except.pure, toBoolean]
      · by_cases hlt : toBoolean labels = true
        · simp [hd, hl, hlt, hlen, bind, Except.bind, pure, Except.pure, strictEqualsZero,
            JSNumber.isZero]
        · simp [hd, hl, hlt, bind, Except.bind, pure, Except.pure]
    · simp [hd]
  have heq := initPriceChart_invalid env canvasId canvas chartData hs hv
  exact ⟨heq, by rw [heq]; rfl⟩

/-- Witness for C3: the sample canvas with an empty `labels` array. -/
theorem initPriceChart_no_data_witness :
    sampleEnv.getElementById "priceChart" = some ⟨0⟩ ∧
    (∃ labels neg e, getProp emptyData "labels" = .ok labels ∧
        getProp labels "length" = .ok (.number (.finite neg 0 e))) ∧
    (initPriceChart sampleEnv "priceChart" emptyData =
      { events := [.consoleWarn [.string "No chart data available"]], result := .ok () } ∧
    constructionCalls (initPriceChart sampleEnv "priceChart" emptyData).events = []) :=
  ⟨rfl, ⟨.array [], false, 0, rfl, rfl⟩,
    initPriceChart_no_data sampleEnv "priceChart" ⟨0⟩ emptyData rfl
      (Or.inr (Or.inr (Or.inr (Or.inr ⟨.array [], false, 0, rfl, rfl⟩))))⟩

/-- C4, as stated, fails: `labels` sent as a dictionary instead of a list is present and
truthy but has no `length`, and the chart is constructed all the same. -/
theorem construction_without_length_counterexample :
    (constructionCalls (initPriceChart sampleEnv "priceChart" dictData).events).length = 1 ∧
    getProp dictData "labels" = .ok (.object [("2024-01-01", .number (JSNumber.ofNat 5))]) ∧
    getProp (.object [("2024-01-01", .number (JSNumber.ofNat 5))]) "length"
      = .ok .undefined :=
  ⟨rfl, rfl, rfl⟩

/-- C4, amended: for every canvas id (one that resolves included) and every `chartData`, a
`new Chart` call happens only if `chartData` is truthy, `chartData.labels` is truthy and
`chartData.labels.length` is not the Number zero (`+0` or `-0`, so not `=== 0`); when
`labels` is an array, only if its length is greater than zero. -/
theorem construction_only_if_guard_passes (env : Env) (canvasId : String) (chartData : JSVal)
    (h : constructionCalls (initPriceChart env canvasId chartData).events ≠ []) :
    (toBoolean chartData = true ∧ ∃ labels len, getProp chartData "labels" = .ok labels ∧
        toBoolean labels = true ∧ getProp labels "length" = .ok len ∧
        ∀ (neg : Bool) (e : Int), len ≠ .number (.finite neg 0 e)) ∧
    (∀ xs, getProp chartData "labels" = .ok (.array xs) → 0 < xs.length) := by
  have hv := constructionCalls_nonempty env canvasId chartData h
  refine ⟨?_, ?_⟩
  · obtain ⟨hd, labels, len, hl, hlt, hlen, hz⟩ := (noChartData_false_iff chartData).mp hv
    refine ⟨hd, labels, len, hl, hlt, hlen, ?_⟩
    intro neg e hzero
    rw [hzero] at hz
    simp [strictEqualsZero, JSNumber.isZero] at hz
  · intro xs hl
    rw [noChartData_of_array chartData xs hl] at hv
    cases xs with
    | nil => simp at hv
    | cons x rest => simp

/-- Witness for C4 amended: the sample data on the sample page, where the chart is
constructed. -/
theorem construction_only_if_guard_passes_witness :
    constructionCalls (initPriceChart sampleEnv "priceChart" sampleData).events ≠ [] ∧
    ((toBoolean sampleData = true ∧ ∃ labels len, getProp sampleData "labels" = .ok labels ∧
        toBoolean labels = true ∧ getProp labels "length" = .ok len ∧
        ∀ (neg : Bool) (e : Int), len ≠ .number (.finite neg 0 e)) ∧
    (∀ xs, getProp sampleData "labels" = .ok (.array xs) → 0 < xs.length)) :=
  ⟨ne_of_apply_ne List.length (by decide),
    construction_only_if_guard_passes sampleEnv "priceChart" sampleData
      (ne_of_apply_ne List.length (by decide))⟩

/-! ## What is passed through -/

/-- C5: a difference between `labels.length` and `prices.length` is neither detected nor
repaired. With the canvas found, `labels` a non-empty array, `prices` an array of any
length, and `currency` a value the template literal can convert to text (any string, as the
data model has it), the call makes exactly one `new Chart` call, hands over `labels` and
`prices` unchanged, logs no error and no warning, and returns. -/
theorem initPriceChart_passes_arrays_unchanged (env : Env) (canvasId : String)
    (canvas : Canvas) (chartData currency : JSVal) (currencyText : String)
    (labels prices : List JSVal)
    (hs : env.getElementById canvasId = some canvas)
    (hl : getProp chartData "labels" = .ok (.array labels)) (hne : labels ≠ [])
    (hp : getProp chartData "prices" = .ok (.array prices))
    (hcur : getProp chartData "currency" = .ok currency)
    (htext : toStringJS env currency = .ok currencyText) :
    ∃ config ds,
      constructionCalls (initPriceChart env canvasId chartData).events = [(canvas, config)] ∧
      config.data.labels = .array labels ∧ config.data.datasets = [ds] ∧
      ds.data = .array prices ∧
      (initPriceChart env canvasId chartData).events.any isErrorOrWarning = false ∧
      (initPriceChart env canvasId chartData).result = .ok () := by
  have hv : noChartData chartData = .ok false := by
    rw [noChartData_of_array chartData labels hl]
    cases labels with
    | nil => exact absurd rfl hne
    | cons x xs => rfl
  obtain ⟨l, p, hl2, hp2, heq⟩ :=
    initPriceChart_valid env canvasId canvas chartData currency currencyText hs hv hcur htext
  rw [hl] at hl2
  rw [hp] at hp2
  cases hl2
  cases hp2
  rw [heq]
  exact ⟨_, _, rfl, rfl, rfl, rfl, rfl, rfl⟩

/-- Witness for C5: three labels against two prices. -/
theorem initPriceChart_passes_arrays_unchanged_witness :
    sampleEnv.getElementById "priceChart" = some ⟨0⟩ ∧
    getProp sampleDataEUR "labels" = .ok (.array sampleLabels) ∧ sampleLabels ≠ [] ∧
    getProp sampleDataEUR "prices"
      = .ok (.array [.number (JSNumber.ofNat 7), .number (JSNumber.ofNat 8)]) ∧
    getProp sampleDataEUR "currency" = .ok (.string "EUR") ∧
    toStringJS sampleEnv (.string "EUR") = .ok "EUR" ∧
    ∃ config ds,
      constructionCalls (initPriceChart sampleEnv "priceChart" sampleDataEUR).events
        = [(⟨0⟩, config)] ∧
      config.data.labels = .array sampleLabels ∧ config.data.datasets = [ds] ∧
      ds.data = .array [.number (JSNumber.ofNat 7), .number (JSNumber.ofNat 8)] ∧
      (initPriceChart sampleEnv "priceChart" sampleDataEUR).events.any isErrorOrWarning
        = false ∧
      (initPriceChart sampleEnv "priceChart" sampleDataEUR).result = .ok () :=
  ⟨rfl, rfl, by simp [sampleLabels], rfl, rfl, rfl,
    initPriceChart_passes_arrays_unchanged sampleEnv "priceChart" ⟨0⟩ sampleDataEUR
      (.string "EUR") "EUR" sampleLabels _ rfl rfl (by simp [sampleLabels]) rfl rfl rfl⟩

/-- C6: in a call that passes both guards, with `chartData.currency` the string `c`, the
label of the single dataset is `Precio (` followed by `c` followed by `)`; for `USD` it is
`Precio (USD)`. -/
theorem series_label_of_currency (env : Env) (canvasId : String) (canvas : Canvas)
    (chartData : JSVal) (c : String)
    (hs : env.getElementById canvasId = some canvas)
    (hv : noChartData chartData = .ok false)
    (hc : getProp chartData "currency" = .ok (.string c)) :
    ∃ config ds,
      constructionCalls (initPriceChart env canvasId chartData).events = [(canvas, config)] ∧
      config.data.datasets = [ds] ∧ ds.label = "Precio (" ++ c ++ ")" ∧
      (c = "USD" → ds.label = "Precio (USD)") := by
  obtain ⟨l, p, -, -, heq⟩ :=
    initPriceChart_valid env canvasId canvas chartData (.string c) c hs hv hc rfl
  rw [heq]
  refine ⟨_, _, rfl, rfl, rfl, ?_⟩
  intro husd
  subst husd
  rfl

/-- Witness for C6 on the sample data, whose currency is `USD`. -/
theorem series_label_of_currency_witness :
    sampleEnv.getElementById "priceChart" = some ⟨0⟩ ∧
    noChartData sampleData = .ok false ∧
    getProp sampleData "currency" = .ok (.string "USD") ∧
    ∃ config ds,
      constructionCalls (initPriceChart sampleEnv "priceChart" sampleData).events
        = [(⟨0⟩, config)] ∧
      config.data.datasets = [ds] ∧ ds.label = "Precio (" ++ "USD" ++ ")" ∧
      ("USD" = "USD" → ds.label = "Precio (USD)") :=
  ⟨rfl, rfl, rfl, series_label_of_currency sampleEnv "priceChart" ⟨0⟩ sampleData "USD" rfl rfl rfl⟩

/-! ## The two formatting callbacks -/

theorem tooltipLabel_of_fixed (env : Env) (chartData currency context parsed price : JSVal)
    (fixed currencyText : String)
    (hparsed : getProp context "parsed" = .ok parsed)
    (hy : getProp parsed "y" = .ok price)
    (hfix : toFixed env price 2 = .ok fixed)
    (hcur : getProp chartData "currency" = .ok currency)
    (htext : toStringJS env currency = .ok currencyText) :
    tooltipLabel env chartData context
      = .ok (.string ("Precio: $" ++ fixed ++ " " ++ currencyText)) := by
  simp only [tooltipLabel, hparsed, hy, hfix, hcur, htext, bind, Except.bind, pure,
    Except.pure]

/-- C7, as stated, fails: for the point values `NaN`, `Infinity` and `1e21` the tooltip text
carries `NaN`, `Infinity` and `1e+21`, none of which has a decimal point, let alone two
digits after one. -/
theorem tooltip_label_counterexample :
    (constructionCalls (initPriceChart sampleEnv "priceChart" sampleDataEUR).events).map
        (fun call => call.2.options.plugins.tooltip.callbacks.label
          (tooltipContext (.number .nan)))
      = [.ok (.string "Precio: $NaN EUR")] ∧
    (constructionCalls (initPriceChart sampleEnv "priceChart" sampleDataEUR).events).map
        (fun call => call.2.options.plugins.tooltip.callbacks.label
          (tooltipContext (.number .posInf)))
      = [.ok (.string "Precio: $Infinity EUR")] ∧
    (constructionCalls (initPriceChart sampleEnv "priceChart" sampleDataEUR).events).map
        (fun call => call.2.options.plugins.tooltip.callbacks.label
          (tooltipContext (.number num1e21)))
      = [.ok (.string "Precio: $1e+21 EUR")] ∧
    '.' ∉ "Precio: $NaN EUR".data ∧ '.' ∉ "Precio: $Infinity EUR".data ∧
    '.' ∉ "Precio: $1e+21 EUR".data :=
  ⟨rfl, rfl, rfl, by decide, by decide, by decide⟩

/-- C7, amended: in a call that passes both guards, with `chartData.currency` the string
`c`, the tooltip label callback applied to a context whose `parsed.y` is the Number `p`
returns `Precio: $`, then the text of `p`, then a space and `c`. For finite `p` of
magnitude below `10^21` the text of `p` is `p` rounded to the nearest hundredth (a tie going
away from zero) written with exactly two digits after the point; for the double `19.999`
and `EUR` the result is `Precio: $20.00 EUR`. For finite `p` of magnitude `10^21` or more
the text is the sign followed by the host rendering of the magnitude; for `NaN`,
`Infinity` and `-Infinity` it is that name. -/
theorem tooltip_label_format (env : Env) (canvasId : String) (canvas : Canvas)
    (chartData : JSVal) (c : String)
    (hs : env.getElementById canvasId = some canvas)
    (hv : noChartData chartData = .ok false)
    (hc : getProp chartData "currency" = .ok (.string c)) :
    ∃ config,
      constructionCalls (initPriceChart env canvasId chartData).events = [(canvas, config)] ∧
      (∀ (context parsed : JSVal) (neg : Bool) (m : Nat) (e : Int),
        getProp context "parsed" = .ok parsed →
        getProp parsed "y" = .ok (.number (.finite neg m e)) →
        JSNumber.absNum m e < 10 ^ 21 * JSNumber.absDen e →
        ∃ n : Nat,
          (100 * JSNumber.magnitude m e - 1 / 2 < (n : ℚ) ∧
            (n : ℚ) ≤ 100 * JSNumber.magnitude m e + 1 / 2) ∧
          config.options.plugins.tooltip.callbacks.label context
            = .ok (.string
                ("Precio: $" ++ signText neg m ++ writtenInHundredths n ++ " " ++ c))) ∧
      (c = "EUR" →
        config.options.plugins.tooltip.callbacks.label (tooltipContext (.number num19999))
          = .ok (.string "Precio: $20.00 EUR")) ∧
      (∀ (context parsed : JSVal) (neg : Bool) (m : Nat) (e : Int),
        getProp context "parsed" = .ok parsed →
        getProp parsed "y" = .ok (.number (.finite neg m e)) →
        10 ^ 21 * JSNumber.absDen e ≤ JSNumber.absNum m e →
        config.options.plugins.tooltip.callbacks.label context
          = .ok (.string
              ("Precio: $" ++ signText neg m ++ env.finiteToString false m e ++ " " ++ c))) ∧
      (∀ (context parsed : JSVal), getProp context "parsed" = .ok parsed →
        (getProp parsed "y" = .ok (.number .nan) →
          config.options.plugins.tooltip.callbacks.label context
            = .ok (.string ("Precio: $NaN " ++ c))) ∧
        (getProp parsed "y" = .ok (.number .posInf) →
          config.options.plugins.tooltip.callbacks.label context
            = .ok (.string ("Precio: $Infinity " ++ c))) ∧
        (getProp parsed "y" = .ok (.number .negInf) →
          config.options.plugins.tooltip.callbacks.label context
            = .ok (.string ("Precio: $-Infinity " ++ c)))) := by
  obtain ⟨l, p, -, -, heq⟩ :=
    initPriceChart_valid env canvasId canvas chartData (.string c) c hs hv hc rfl
  rw [heq]
  refine ⟨_, rfl, ?_, ?_, ?_, ?_⟩
  · intro context parsed neg m e hparsed hy hsmall
    obtain ⟨n, hn, hfix⟩ := toFixed_two_of_small env neg m e hsmall
    refine ⟨n, hn, ?_⟩
    show tooltipLabel env chartData context = _
    rw [tooltipLabel_of_fixed env chartData _ context parsed _ _ c hparsed hy hfix hc rfl]
    simp [String.append_assoc]
  · intro heur
    subst heur
    show tooltipLabel env chartData (tooltipContext (.number num19999)) = _
    rw [tooltipLabel_of_fixed env chartData _ (tooltipContext (.number num19999))
      (.object [("y", .number num19999)]) (.number num19999) "20.00" "EUR" rfl rfl rfl hc
      rfl]
    rfl
  · intro context parsed neg m e hparsed hy hbig
    show tooltipLabel env chartData context = _
    rw [tooltipLabel_of_fixed env chartData _ context parsed _ _ c hparsed hy
      (toFixed_two_of_big env neg m e hbig) hc rfl]
    simp [String.append_assoc]
  · intro context parsed hparsed
    refine ⟨?_, ?_, ?_⟩ <;> intro hy <;>
      show tooltipLabel env chartData context = _
    · rw [tooltipLabel_of_fixed env chartData _ context parsed _ "NaN" c hparsed hy rfl hc
        rfl]
      simp [String.append_assoc]
    · rw [tooltipLabel_of_fixed env chartData _ context parsed _ "Infinity" c hparsed hy rfl
        hc rfl]
      simp [String.append_assoc]
    · rw [tooltipLabel_of_fixed env chartData _ context parsed _ "-Infinity" c hparsed hy rfl
        hc rfl]
      simp [String.append_assoc]

/-- Witness for C7 amended, on the sample data priced in euros. -/
theorem tooltip_label_format_witness :
    sampleEnv.getElementById "priceChart" = some ⟨0⟩ ∧
    noChartData sampleDataEUR = .ok false ∧
    getProp sampleDataEUR "currency" = .ok (.string "EUR") ∧
    ∃ config,
      constructionCalls (initPriceChart sampleEnv "priceChart" sampleDataEUR).events
        = [(⟨0⟩, config)] ∧
      (∀ (context parsed : JSVal) (neg : Bool) (m : Nat) (e : Int),
        getProp context "parsed" = .ok parsed →
        getProp parsed "y" = .ok (.number (.finite neg m e)) →
        JSNumber.absNum m e < 10 ^ 21 * JSNumber.absDen e →
        ∃ n : Nat,
          (100 * JSNumber.magnitude m e - 1 / 2 < (n : ℚ) ∧
            (n : ℚ) ≤ 100 * JSNumber.magnitude m e + 1 / 2) ∧
          config.options.plugins.tooltip.callbacks.label context
            = .ok (.string
                ("Precio: $" ++ signText neg m ++ writtenInHundredths n ++ " " ++ "EUR"))) ∧
      ("EUR" = "EUR" →
        config.options.plugins.tooltip.callbacks.label (tooltipContext (.number num19999))
          = .ok (.string "Precio: $20.00 EUR")) ∧
      (∀ (context parsed : JSVal) (neg : Bool) (m : Nat) (e : Int),
        getProp context "parsed" = .ok parsed →
        getProp parsed "y" = .ok (.number (.finite neg m e)) →
        10 ^ 21 * JSNumber.absDen e ≤ JSNumber.absNum m e →
        config.options.plugins.tooltip.callbacks.label context
          = .ok (.string
              ("Precio: $" ++ signText neg m ++ sampleEnv.finiteToString false m e
                ++ " " ++ "EUR"))) ∧
      (∀ (context parsed : JSVal), getProp context "parsed" = .ok parsed →
        (getProp parsed "y" = .ok (.number .nan) →
          config.options.plugins.tooltip.callbacks.label context
            = .ok (.string ("Precio: $NaN " ++ "EUR"))) ∧
        (getProp parsed "y" = .ok (.number .posInf) →
          config.options.plugins.tooltip.callbacks.label context
            = .ok (.string ("Precio: $Infinity " ++ "EUR"))) ∧
        (getProp parsed "y" = .ok (.number .negInf) →
          config.options.plugins.tooltip.callbacks.label context
            = .ok (.string ("Precio: $-Infinity " ++ "EUR")))) :=
  ⟨rfl, rfl, rfl,
    tooltip_label_format sampleEnv "priceChart" ⟨0⟩ sampleDataEUR "EUR" rfl rfl rfl⟩

/-- C8, as stated, fails: for the tick values `NaN`, `Infinity` and `1e21` the tick text is
`$NaN`, `$Infinity` and `$1e+21`, none of which has a decimal point. -/
theorem y_tick_counterexample :
    (constructionCalls (initPriceChart sampleEnv "priceChart" sampleData).events).map
        (fun call => call.2.options.scales.y.ticks.callback (.number .nan))
      = [.ok (.string "$NaN")] ∧
    (constructionCalls (initPriceChart sampleEnv "priceChart" sampleData).events).map
        (fun call => call.2.options.scales.y.ticks.callback (.number .posInf))
      = [.ok (.string "$Infinity")] ∧
    (constructionCalls (initPriceChart sampleEnv "priceChart" sampleData).events).map
        (fun call => call.2.options.scales.y.ticks.callback (.number num1e21))
      = [.ok (.string "$1e+21")] ∧
    '.' ∉ "$NaN".data ∧ '.' ∉ "$Infinity".data ∧ '.' ∉ "$1e+21".data :=
  ⟨rfl, rfl, rfl, by decide, by decide, by decide⟩

/-- C8, amended: in a call that passes both guards and whose `currency` converts to text,
the y-axis tick callback applied to the Number `v` returns `$` followed by the text of `v`.
For finite `v` of magnitude below `10^21` the text is `v` rounded to the nearest hundredth
(a tie going away from zero) written with exactly two digits after the point; for `5` the
result is `$5.00`. For finite `v` of magnitude `10^21` or more the text is the sign followed
by the host rendering of the magnitude; for `NaN`, `Infinity` and `-Infinity` it is that
name. The callback is the same function whatever the canvas and the data of the call. -/
theorem y_tick_format (env : Env) (canvasId : String) (canvas : Canvas)
    (chartData currency : JSVal) (currencyText : String)
    (hs : env.getElementById canvasId = some canvas)
    (hv : noChartData chartData = .ok false)
    (hcur : getProp chartData "currency" = .ok currency)
    (htext : toStringJS env currency = .ok currencyText) :
    ∃ config,
      constructionCalls (initPriceChart env canvasId chartData).events = [(canvas, config)] ∧
      (∀ (neg : Bool) (m : Nat) (e : Int),
        JSNumber.absNum m e < 10 ^ 21 * JSNumber.absDen e →
        ∃ n : Nat,
          (100 * JSNumber.magnitude m e - 1 / 2 < (n : ℚ) ∧
            (n : ℚ) ≤ 100 * JSNumber.magnitude m e + 1 / 2) ∧
          config.options.scales.y.ticks.callback (.number (.finite neg m e))
            = .ok (.string ("$" ++ signText neg m ++ writtenInHundredths n))) ∧
      config.options.scales.y.ticks.callback (.number (JSNumber.ofNat 5))
        = .ok (.string "$5.00") ∧
      (∀ (neg : Bool) (m : Nat) (e : Int),
        10 ^ 21 * JSNumber.absDen e ≤ JSNumber.absNum m e →
        config.options.scales.y.ticks.callback (.number (.finite neg m e))
          = .ok (.string ("$" ++ signText neg m ++ env.finiteToString false m e))) ∧
      config.options.scales.y.ticks.callback (.number .nan) = .ok (.string "$NaN") ∧
      config.options.scales.y.ticks.callback (.number .posInf) = .ok (.string "$Infinity") ∧
      config.options.scales.y.ticks.callback (.number .negInf)
        = .ok (.string "$-Infinity") ∧
      (∀ (canvasId2 : String) (canvas2 : Canvas) (chartData2 currency2 : JSVal)
          (currencyText2 : String),
        env.getElementById canvasId2 = some canvas2 →
        noChartData chartData2 = .ok false →
        getProp chartData2 "currency" = .ok currency2 →
        toStringJS env currency2 = .ok currencyText2 →
        ∃ config2,
          constructionCalls (initPriceChart env canvasId2 chartData2).events
            = [(canvas2, config2)] ∧
          config2.options.scales.y.ticks.callback = config.options.scales.y.ticks.callback) := by
  obtain ⟨l, p, -, -, heq⟩ :=
    initPriceChart_valid env canvasId canvas chartData currency currencyText hs hv hcur htext
  rw [heq]
  refine ⟨_, rfl, ?_, rfl, ?_, rfl, rfl, rfl, ?_⟩
  · intro neg m e hsmall
    obtain ⟨n, hn, hfix⟩ := toFixed_two_of_small env neg m e hsmall
    refine ⟨n, hn, ?_⟩
    show yTickCallback env _ = _
    simp only [yTickCallback, hfix, bind, Except.bind, pure, Except.pure]
    simp [String.append_assoc]
  · intro neg m e hbig
    show yTickCallback env _ = _
    simp only [yTickCallback, toFixed_two_of_big env neg m e hbig, bind, Except.bind, pure,
      Except.pure]
    simp [String.append_assoc]
  · intro canvasId2 canvas2 chartData2 currency2 currencyText2 hs2 hv2 hcur2 htext2
    obtain ⟨l2, p2, -, -, heq2⟩ :=
      initPriceChart_valid env canvasId2 canvas2 chartData2 currency2 currencyText2 hs2 hv2
        hcur2 htext2
    rw [heq2]
    exact ⟨_, rfl, rfl⟩

/-- Witness for C8 amended, on the sample data. -/
theorem y_tick_format_witness :
    sampleEnv.getElementById "priceChart" = some ⟨0⟩ ∧
    noChartData sampleData = .ok false ∧
    getProp sampleData "currency" = .ok (.string "USD") ∧
    toStringJS sampleEnv (.string "USD") = .ok "USD" ∧
    ∃ config,
      constructionCalls (initPriceChart sampleEnv "priceChart" sampleData).events
        = [(⟨0⟩, config)] ∧
      (∀ (neg : Bool) (m : Nat) (e : Int),
        JSNumber.absNum m e < 10 ^ 21 * JSNumber.absDen e →
        ∃ n : Nat,
          (100 * JSNumber.magnitude m e - 1 / 2 < (n : ℚ) ∧
            (n : ℚ) ≤ 100 * JSNumber.magnitude m e + 1 / 2) ∧
          config.options.scales.y.ticks.callback (.number (.finite neg m e))
            = .ok (.string ("$" ++ signText neg m ++ writtenInHundredths n))) ∧
      config.options.scales.y.ticks.callback (.number (JSNumber.ofNat 5))
        = .ok (.string "$5.00") ∧
      (∀ (neg : Bool) (m : Nat) (e : Int),
        10 ^ 21 * JSNumber.absDen e ≤ JSNumber.absNum m e →
        config.options.scales.y.ticks.callback (.number (.finite neg m e))
          = .ok (.string ("$" ++ signText neg m ++ sampleEnv.finiteToString false m e))) ∧
      config.options.scales.y.ticks.callback (.number .nan) = .ok (.string "$NaN") ∧
      config.options.scales.y.ticks.callback (.number .posInf) = .ok (.string "$Infinity") ∧
      config.options.scales.y.ticks.callback (.number .negInf)
        = .ok (.string "$-Infinity") ∧
      (∀ (canvasId2 : String) (canvas2 : Canvas) (chartData2 currency2 : JSVal)
          (currencyText2 : String),
        sampleEnv.getElementById canvasId2 = some canvas2 →
        noChartData chartData2 = .ok false →
        getProp chartData2 "currency" = .ok currency2 →
        toStringJS sampleEnv currency2 = .ok currencyText2 →
        ∃ config2,
          constructionCalls (initPriceChart sampleEnv canvasId2 chartData2).events
            = [(canvas2, config2)] ∧
          config2.options.scales.y.ticks.callback = config.options.scales.y.ticks.callback) :=
  ⟨rfl, rfl, rfl, rfl,
    y_tick_format sampleEnv "priceChart" ⟨0⟩ sampleData (.string "USD") "USD" rfl rfl rfl rfl⟩

/-! ## The fixed part of the configuration -/

/-- C9: in a valid call (the canvas is found, the data passes the guard, and `currency`
is a value the template literal can convert to text, as any string is) the configuration
has one dataset and carries the fixed values the specification lists: stroke colour
`#0d6efd`; fill colour `rgba(13,110,253,0.1)`, which the source writes with a blank after
each comma; stroke width 2, fill on, tension 0.4, point radius 3 and hover radius 6, point
border colour white, written `#fff`; legend display off; tooltip mode `index` with
intersect false; y axis beginAtZero false with grid colour black at 5% opacity, written
`rgba(0, 0, 0, 0.05)`; x axis ticks with minimum and maximum rotation 45 and at most 15
ticks, x grid display off; interaction mode `nearest` on axis `x` with intersect false;
responsive and maintainAspectRatio both true. -/
theorem config_fixed_values (env : Env) (canvasId : String) (canvas : Canvas)
    (chartData currency : JSVal) (currencyText : String)
    (hs : env.getElementById canvasId = some canvas)
    (hv : noChartData chartData = .ok false)
    (hcur : getProp chartData "currency" = .ok currency)
    (htext : toStringJS env currency = .ok currencyText) :
    ∃ config ds,
      constructionCalls (initPriceChart env canvasId chartData).events = [(canvas, config)] ∧
      config.data.datasets = [ds] ∧
      ds.borderColor = "#0d6efd" ∧ ds.backgroundColor = "rgba(13, 110, 253, 0.1)" ∧
      withoutBlanks ds.backgroundColor = "rgba(13,110,253,0.1)" ∧
      ds.borderWidth = 2 ∧ ds.fill = true ∧ ds.tension = 0.4 ∧
      ds.pointRadius = 3 ∧ ds.pointHoverRadius = 6 ∧ ds.pointBorderColor = "#fff" ∧
      config.options.plugins.legend.display = false ∧
      config.options.plugins.tooltip.mode = "index" ∧
      config.options.plugins.tooltip.intersect = false ∧
      config.options.scales.y.beginAtZero = false ∧
      config.options.scales.y.grid.color = "rgba(0, 0, 0, 0.05)" ∧
      config.options.scales.x.ticks.minRotation = 45 ∧
      config.options.scales.x.ticks.maxRotation = 45 ∧
      config.options.scales.x.ticks.maxTicksLimit = 15 ∧
      config.options.scales.x.grid.display = false ∧
      config.options.interaction.mode = "nearest" ∧
      config.options.interaction.axis = "x" ∧
      config.options.interaction.intersect = false ∧
      config.options.responsive = true ∧
      config.options.maintainAspectRatio = true := by
  obtain ⟨l, p, -, -, heq⟩ :=
    initPriceChart_valid env canvasId canvas chartData currency currencyText hs hv hcur htext
  rw [heq]
  exact ⟨_, _, rfl, rfl, rfl, rfl, rfl, rfl, rfl, rfl, rfl, rfl, rfl, rfl, rfl, rfl,
    rfl, rfl, rfl, rfl, rfl, rfl, rfl, rfl, rfl, rfl, rfl⟩

/-- Witness for C9, on the sample data. -/
theorem config_fixed_values_witness :
    sampleEnv.getElementById "priceChart" = some ⟨0⟩ ∧
    noChartData sampleData = .ok false ∧
    getProp sampleData "currency" = .ok (.string "USD") ∧
    toStringJS sampleEnv (.string "USD") = .ok "USD" ∧
    ∃ config ds,
      constructionCalls (initPriceChart sampleEnv "priceChart" sampleData).events
        = [(⟨0⟩, config)] ∧
      config.data.datasets = [ds] ∧
      ds.borderColor = "#0d6efd" ∧ ds.backgroundColor = "rgba(13, 110, 253, 0.1)" ∧
      withoutBlanks ds.backgroundColor = "rgba(13,110,253,0.1)" ∧
      ds.borderWidth = 2 ∧ ds.fill = true ∧ ds.tension = 0.4 ∧
      ds.pointRadius = 3 ∧ ds.pointHoverRadius = 6 ∧ ds.pointBorderColor = "#fff" ∧
      config.options.plugins.legend.display = false ∧
      config.options.plugins.tooltip.mode = "index" ∧
      config.options.plugins.tooltip.intersect = false ∧
      config.options.scales.y.beginAtZero = false ∧
      config.options.scales.y.grid.color = "rgba(0, 0, 0, 0.05)" ∧
      config.options.scales.x.ticks.minRotation = 45 ∧
      config.options.scales.x.ticks.maxRotation = 45 ∧
      config.options.scales.x.ticks.maxTicksLimit = 15 ∧
      config.options.scales.x.grid.display = false ∧
      config.options.interaction.mode = "nearest" ∧
      config.options.interaction.axis = "x" ∧
      config.options.interaction.intersect = false ∧
      config.options.responsive = true ∧
      config.options.maintainAspectRatio = true :=
  ⟨rfl, rfl, rfl, rfl,
    config_fixed_values sampleEnv "priceChart" ⟨0⟩ sampleData (.string "USD") "USD" rfl rfl
      rfl rfl⟩

/-! ## Independence from the canvas and from the payload -/

theorem tooltipLabel_factors (env : Env) (context : JSVal) :
    ∃ pre : Except JSError String, ∀ (chartData currency : JSVal) (currencyText : String),
      getProp chartData "currency" = .ok currency →
      toStringJS env currency = .ok currencyText →
      tooltipLabel env chartData context
        = pre.map (fun s => JSVal.string (s ++ currencyText)) := by
  refine ⟨(do
    let parsed ← getProp context "parsed"
    let price ← getProp parsed "y"
    let fixed ← toFixed env price 2
    pure ("Precio: $" ++ fixed ++ " ")), ?_⟩
  intro chartData currency currencyText hc ht
  unfold tooltipLabel
  cases h1 : getProp context "parsed" with
  | error err => simp [bind, Except.bind, Except.map]
  | ok parsed =>
    cases h2 : getProp parsed "y" with
    | error err => simp [h2, bind, Except.bind, Except.map]
    | ok price =>
      cases h3 : toFixed env price 2 with
      | error err => simp [h2, h3, bind, Except.bind, Except.map]
      | ok fixed => simp [h2, h3, hc, ht, bind, Except.bind, Except.map, pure, Except.pure]

/-- C10: building the configuration does not depend on the canvas, and depends on the data
only through the payload. For valid calls on one page (the canvas is found, the data passes
the guard, and `currency` converts to text, as any string does): the same `chartData` on
two canvases (distinct or not) yields one and the same configuration, callbacks included;
and two different `chartData` yield configurations that become equal once the payload
fields (labels, series label, series data, tooltip text callback) are overwritten with
common values, whose series labels differ only in the currency text, and whose tooltip
callbacks, on every argument, fail alike or return texts that differ only in the currency
text at the end. -/
theorem config_independent_of_canvas (env : Env) (canvasId1 canvasId2 : String)
    (canvas1 canvas2 : Canvas) (chartData1 chartData2 currency1 currency2 : JSVal)
    (currencyText1 currencyText2 : String)
    (hs1 : env.getElementById canvasId1 = some canvas1)
    (hs2 : env.getElementById canvasId2 = some canvas2)
    (hv1 : noChartData chartData1 = .ok false)
    (hv2 : noChartData chartData2 = .ok false)
    (hcur1 : getProp chartData1 "currency" = .ok currency1)
    (htext1 : toStringJS env currency1 = .ok currencyText1)
    (hcur2 : getProp chartData2 "currency" = .ok currency2)
    (htext2 : toStringJS env currency2 = .ok currencyText2) :
    ∃ config1 config2 ds1 ds2,
      constructionCalls (initPriceChart env canvasId1 chartData1).events
        = [(canvas1, config1)] ∧
      constructionCalls (initPriceChart env canvasId2 chartData1).events
        = [(canvas2, config1)] ∧
      constructionCalls (initPriceChart env canvasId2 chartData2).events
        = [(canvas2, config2)] ∧
      (∀ labels seriesLabel seriesData tooltipText,
        config1.withPayload labels seriesLabel seriesData tooltipText
          = config2.withPayload labels seriesLabel seriesData tooltipText) ∧
      config1.data.datasets = [ds1] ∧ config2.data.datasets = [ds2] ∧
      ds1.label = "Precio (" ++ currencyText1 ++ ")" ∧
      ds2.label = "Precio (" ++ currencyText2 ++ ")" ∧
      (∀ context, ∃ pre : Except JSError String,
        config1.options.plugins.tooltip.callbacks.label context
          = pre.map (fun s => JSVal.string (s ++ currencyText1)) ∧
        config2.options.plugins.tooltip.callbacks.label context
          = pre.map (fun s => JSVal.string (s ++ currencyText2))) := by
  obtain ⟨l1a, p1a, hl1a, hp1a, heq1a⟩ :=
    initPriceChart_valid env canvasId1 canvas1 chartData1 currency1 currencyText1 hs1 hv1
      hcur1 htext1
  obtain ⟨l1b, p1b, hl1b, hp1b, heq1b⟩ :=
    initPriceChart_valid env canvasId2 canvas2 chartData1 currency1 currencyText1 hs2 hv1
      hcur1 htext1
  obtain ⟨l2, p2, -, -, heq2⟩ :=
    initPriceChart_valid env canvasId2 canvas2 chartData2 currency2 currencyText2 hs2 hv2
      hcur2 htext2
  have e1 : l1b = l1a := by rw [hl1a] at hl1b; cases hl1b; rfl
  have e3 : p1b = p1a := by rw [hp1a] at hp1b; cases hp1b; rfl
  subst e1 e3
  rw [heq1a, heq1b, heq2]
  refine ⟨_, _, _, _, rfl, rfl, rfl, fun _ _ _ _ => rfl, rfl, rfl, rfl, rfl, ?_⟩
  intro context
  obtain ⟨pre, hpre⟩ := tooltipLabel_factors env context
  exact ⟨pre, hpre chartData1 currency1 currencyText1 hcur1 htext1,
    hpre chartData2 currency2 currencyText2 hcur2 htext2⟩

/-- Witness for C10: the dollar and the euro sample data on the two canvases of the sample
page. -/
theorem config_independent_of_canvas_witness :
    sampleEnv.getElementById "priceChart" = some ⟨0⟩ ∧
    sampleEnv.getElementById "priceChart2" = some ⟨1⟩ ∧
    (⟨0⟩ : Canvas) ≠ ⟨1⟩ ∧
    noChartData sampleData = .ok false ∧
    noChartData sampleDataEUR = .ok false ∧
    getProp sampleData "currency" = .ok (.string "USD") ∧
    toStringJS sampleEnv (.string "USD") = .ok "USD" ∧
    getProp sampleDataEUR "currency" = .ok (.string "EUR") ∧
    toStringJS sampleEnv (.string "EUR") = .ok "EUR" ∧
    ∃ config1 config2 ds1 ds2,
      constructionCalls (initPriceChart sampleEnv "priceChart" sampleData).events
        = [(⟨0⟩, config1)] ∧
      constructionCalls (initPriceChart sampleEnv "priceChart2" sampleData).events
        = [(⟨1⟩, config1)] ∧
      constructionCalls (initPriceChart sampleEnv "priceChart2" sampleDataEUR).events
        = [(⟨1⟩, config2)] ∧
      (∀ labels seriesLabel seriesData tooltipText,
        config1.withPayload labels seriesLabel seriesData tooltipText
          = config2.withPayload labels seriesLabel seriesData tooltipText) ∧
      config1.data.datasets = [ds1] ∧ config2.data.datasets = [ds2] ∧
      ds1.label = "Precio (" ++ "USD" ++ ")" ∧
      ds2.label = "Precio (" ++ "EUR" ++ ")" ∧
      (∀ context, ∃ pre : Except JSError String,
        config1.options.plugins.tooltip.callbacks.label context
          = pre.map (fun s => JSVal.string (s ++ "USD")) ∧
        config2.options.plugins.tooltip.callbacks.label context
          = pre.map (fun s => JSVal.string (s ++ "EUR"))) :=
  ⟨rfl, rfl, by decide, rfl, rfl, rfl, rfl, rfl, rfl,
    config_independent_of_canvas sampleEnv "priceChart" "priceChart2" ⟨0⟩ ⟨1⟩
      sampleData sampleDataEUR (.string "USD") (.string "EUR") "USD" "EUR"
      rfl rfl rfl rfl rfl rfl rfl rfl⟩

end PriceChart
